import Mathlib

/-!
Verification of `nova/scheduler/api.py` (zone reroute / fan-out machinery).

The Python source is shallowly embedded below.  Python values that flow
through the routing layer are modelled by the inductive `PyVal` (the
`None` singleton, integers, strings, and attribute/dict objects given as
ordered field lists).  Python exceptions are modelled by `Exc`, a record
carrying the exception class name (which is what `type(e) in
errors_to_ignore` and the `except` clauses discriminate on) and an
optional payload (used by `RedirectResult.results` and
`InstanceNotFound.instance_id`).  Fallible Python code becomes
`Except Exc _`.

External collaborators (the `db` module, `novaclient`, `nova.utils`,
`eventlet`) are not part of the source file; they enter the embedding as
explicit function parameters: a local-database lookup
`PyVal → PyVal → Option Int`, per-zone authentication
`Zone → Except Exc Unit`, novaclient manager operations, and the
UUID-shape test `PyVal → Bool`.  The green-thread pool semantics used by
the source (spawn every task, `waitall`, then collect results in spawn
order, re-raising a task exception when its result is fetched) is
deterministic once the per-zone outcomes are fixed, and is embedded as
the two-phase `czm_spawn` / `czm_collect` pipeline and as in-order
`List.mapM` for `GreenPool.imap`.
-/

/-- Python values flowing through the scheduler API layer. -/
inductive PyVal where
  | none : PyVal
  | int (n : Int) : PyVal
  | str (s : String) : PyVal
  | obj (fields : List (String × PyVal)) : PyVal

/-- A raised Python exception: the class name (what `except` clauses and
`type(e) in ...` tests discriminate on) plus a payload used by the
exception classes of the source that carry data. -/
structure Exc where
  ty : String
  payload : PyVal

/-- `IndexError`, raised by out-of-range list indexing / `list.pop`. -/
def indexErrorExc : Exc := ⟨"IndexError", PyVal.none⟩

/-- `TypeError`, raised e.g. by calling a function with a wrong argument
count or by `int()` on a non-numeric object. -/
def typeErrorExc : Exc := ⟨"TypeError", PyVal.none⟩

/-- `ValueError`, raised by `int()` on a non-numeric string. -/
def valueErrorExc : Exc := ⟨"ValueError", PyVal.none⟩

/-- `AttributeError`, raised by `obj.__dict__` on objects without one. -/
def attributeErrorExc : Exc := ⟨"AttributeError", PyVal.none⟩

/-- `novaclient.exceptions.BadRequest`, what the source catches around
zone authentication in `call_zone_method`. -/
def badRequestExc : Exc := ⟨"BadRequest", PyVal.none⟩

/-- `novaclient.NotFound`, the not-found signal of the zone client. -/
def ncNotFoundExc : Exc := ⟨"NotFound", PyVal.none⟩

/-- The `RedirectResult` exception class of the source: carries the
pre-cooked `results` value for the HTTP layer. -/
def RedirectResult (results : PyVal) : Exc := ⟨"RedirectResult", results⟩

/-- `nova.exception.InstanceNotFound`, carrying the missing id. -/
def InstanceNotFound (instance_id : PyVal) : Exc := ⟨"InstanceNotFound", instance_id⟩

/-- Python truthiness for the values of our model (`None`, `0` and `""`
are falsy; class instances are truthy). -/
def truthy : PyVal → Bool
  | PyVal.none => false
  | PyVal.int n => n != 0
  | PyVal.str s => s != ""
  | PyVal.obj _ => true

/-- `kwargs.get(key, None)`: the value stored under `key`, or `None` when
the key is absent. -/
def kwGet : List (String × PyVal) → String → PyVal
  | [], _ => PyVal.none
  | (k, v) :: rest, key => if k = key then v else kwGet rest key

/-- `key in kwargs`: key-presence test on the keyword dictionary. -/
def kwHas : List (String × PyVal) → String → Bool
  | [], _ => false
  | (k, _) :: rest, key => if k = key then true else kwHas rest key

/-- `kwargs[key] = v`: replace the value stored under an existing key
(append when absent, as Python dict assignment does). -/
def kwSet : List (String × PyVal) → String → PyVal → List (String × PyVal)
  | [], key, v => [(key, v)]
  | (k, w) :: rest, key, v =>
    if k = key then (k, v) :: rest else (k, w) :: kwSet rest key v

/-- `args[i]`: Python list indexing, raising `IndexError` out of range. -/
def pyGetItem (args : List PyVal) (i : Nat) : Except Exc PyVal :=
  match args.get? i with
  | some v => Except.ok v
  | Option.none => Except.error indexErrorExc

/-- `args.pop(i)` (result list only; the popped element is discarded by
the source): raises `IndexError` when `i` is out of range. -/
def pyPop (args : List PyVal) (i : Nat) : Except Exc (List PyVal) :=
  if i < args.length then Except.ok (args.take i ++ args.drop (i + 1))
  else Except.error indexErrorExc

/-- `args.insert(i, v)`: Python list insertion (clamping at the ends,
never raising). -/
def pyInsert (args : List PyVal) (i : Nat) (v : PyVal) : List PyVal :=
  args.take i ++ v :: args.drop i

/-- `reroute_compute.get_collection_context_and_id(self, args, kwargs)`:

    context = kwargs.get('context', None)
    instance_id = kwargs.get('instance_id', None)
    if len(args) > 0 and not context:
        context = args[1]
    if len(args) > 1 and not instance_id:
        instance_id = args[2]
    return ("servers", context, instance_id)

Note the guards check `len(args) > 0` / `len(args) > 1` but read
`args[1]` / `args[2]`, so the reads can raise `IndexError`. -/
def get_collection_context_and_id (args : List PyVal)
    (kwargs : List (String × PyVal)) : Except Exc (String × PyVal × PyVal) := do
  let context0 := kwGet kwargs "context"
  let instance_id0 := kwGet kwargs "instance_id"
  let context ←
    if args.length > 0 && !(truthy context0) then pyGetItem args 1
    else Except.ok context0
  let instance_id ←
    if args.length > 1 && !(truthy instance_id0) then pyGetItem args 2
    else Except.ok instance_id0
  Except.ok ("servers", context, instance_id)

/-- `reroute_compute.replace_uuid_with_id(args, kwargs, replacement_id)`:

    if 'instance_id' in kwargs:
        kwargs['instance_id'] = replacement_id
    elif len(args) > 1:
        args.pop(2)
        args.insert(2, replacement_id)

Returns the (args, kwargs) pair after the mutation; `args.pop(2)` raises
`IndexError` when `len(args) == 2`. -/
def replace_uuid_with_id (args : List PyVal) (kwargs : List (String × PyVal))
    (replacement_id : PyVal) :
    Except Exc (List PyVal × List (String × PyVal)) :=
  if kwHas kwargs "instance_id" then
    Except.ok (args, kwSet kwargs "instance_id" replacement_id)
  else if args.length > 1 then do
    let popped ← pyPop args 2
    Except.ok (pyInsert popped 2 replacement_id, kwargs)
  else Except.ok (args, kwargs)

/-- The call `self._route_to_child_zones(context, collection, item_uuid)`
exactly as the source executes it.  In the source,
`_route_to_child_zones` is defined inside the class with the three
parameters `(context, collection, item_uuid)` and no `self` parameter;
looked up through `self` it becomes a bound method, so the call supplies
four arguments to a three-parameter function and Python raises
`TypeError` before the body runs (the body could not run anyway: it
references the unbound names `self` and `InstanceNotFound`).  No zone
directory read and no fan-out happens at this call site. -/
def route_to_child_zones (_context _item_uuid : PyVal) : Except Exc PyVal :=
  Except.error typeErrorExc

/-- `wrapped_f(*args, **kwargs)`, the closure produced by applying the
`reroute_compute` decorator to a handler `f`:

    collection, context, item_id_or_uuid = \
        self.get_collection_context_and_id(args, kwargs)
    attempt_reroute = False
    if utils.is_uuid_like(item_id_or_uuid):
        item_uuid = item_id_or_uuid
        try:
            instance = db.instance_get_by_uuid(context, item_uuid)
        except exception.InstanceNotFound, e:
            attempt_reroute = True
        else:
            item_id = instance['id']
            args = list(args)
            self.replace_uuid_with_id(args, kwargs, item_id)
    if attempt_reroute:
        return self._route_to_child_zones(context, collection, item_uuid)
    else:
        return f(*args, **kwargs)

`is_uuid_like` is `nova.utils.is_uuid_like` and `instance_get_by_uuid`
is the local database lookup (returning the found instance's integer
`id` field, or `none` for `InstanceNotFound`); both are external
collaborators passed in as parameters.  The `route` parameter stands for
the behaviour of the `self._route_to_child_zones(...)` call site; the
source's actual behaviour there is `route_to_child_zones` above. -/
def wrapped_f (is_uuid_like : PyVal → Bool)
    (instance_get_by_uuid : PyVal → PyVal → Option Int)
    (route : PyVal → PyVal → Except Exc PyVal)
    (f : List PyVal → List (String × PyVal) → Except Exc PyVal)
    (args : List PyVal) (kwargs : List (String × PyVal)) : Except Exc PyVal := do
  let (_collection, context, item_id_or_uuid) ←
    get_collection_context_and_id args kwargs
  if is_uuid_like item_id_or_uuid then
    match instance_get_by_uuid context item_id_or_uuid with
    | Option.none => route context item_id_or_uuid
    | some item_id => do
      let (args2, kwargs2) ←
        replace_uuid_with_id args kwargs (PyVal.int item_id)
      f args2 kwargs2
  else
    f args kwargs

/-- `redirect_handler(f)` applied to `(*args, **kwargs)`:

    try:
        return f(*args, **kwargs)
    except RedirectResult, e:
        return e.results
-/
def redirect_handler
    (f : List PyVal → List (String × PyVal) → Except Exc PyVal)
    (args : List PyVal) (kwargs : List (String × PyVal)) : Except Exc PyVal :=
  match f args kwargs with
  | Except.ok v => Except.ok v
  | Except.error e =>
    if e.ty == "RedirectResult" then Except.ok e.payload else Except.error e

/-- A child-zone registration record, as read from the zone directory
(`db.zone_get_all`). -/
structure Zone where
  id : Nat
  username : String
  password : String
  api_url : String

/-- `_process(func, zone)`, the worker stub of `child_zone_helper`:

    nova = novaclient.OpenStack(zone.username, zone.password, zone.api_url)
    nova.authenticate()
    return func(nova, zone)

No exception is caught here: an authentication failure propagates out of
the worker.  `authenticate` models client construction plus
`nova.authenticate()` for a zone; `clientOf` models the authenticated
client obtained for that zone. -/
def _process {Client : Type} (authenticate : Zone → Except Exc Unit)
    (clientOf : Zone → Client)
    (func : Client → Zone → Except Exc PyVal) (zone : Zone) :
    Except Exc PyVal := do
  let _ ← authenticate zone
  func (clientOf zone) zone

/-- `child_zone_helper(zone_list, func)`:

    green_pool = greenpool.GreenPool()
    return [result for result in green_pool.imap(
                    _wrap_method(_process, func), zone_list)]

`GreenPool.imap` yields results in input order and re-raises a worker's
exception when that worker's slot is reached, which aborts the list
comprehension; in-order `List.mapM` over `Except` has exactly this
result. -/
def child_zone_helper {Client : Type} (authenticate : Zone → Except Exc Unit)
    (clientOf : Zone → Client)
    (func : Client → Zone → Except Exc PyVal) (zone_list : List Zone) :
    Except Exc (List PyVal) :=
  zone_list.mapM (_process authenticate clientOf func)

/-- The `errors_to_ignore` argument of `call_zone_method`: `None`, a
single exception class, or a list/tuple of exception classes (classes
are identified by name, as in `Exc.ty`). -/
inductive ErrorsToIgnore where
  | pynone : ErrorsToIgnore
  | single (ty : String) : ErrorsToIgnore
  | tylist (tys : List String) : ErrorsToIgnore

/-- The normalization at the top of `call_zone_method`:

    if not isinstance(errors_to_ignore, (list, tuple)):
        errors_to_ignore = [errors_to_ignore]

The resulting list may contain `None` (when the default was used), which
never equals `type(e)`; list entries are `Option String`, with `none`
standing for the Python `None` entry. -/
def normalize_errors_to_ignore : ErrorsToIgnore → List (Option String)
  | ErrorsToIgnore.pynone => [Option.none]
  | ErrorsToIgnore.single t => [some t]
  | ErrorsToIgnore.tylist ts => ts.map some

/-- `_error_trap(*args, **kwargs)` inside `call_zone_method`, applied to
the outcome of the zone's `collection_method` call:

    try:
        return collection_method(*args, **kwargs)
    except Exception as e:
        if type(e) in errors_to_ignore:
            return None
        raise
-/
def _error_trap (ignored : List (Option String)) (r : Except Exc PyVal) :
    Except Exc PyVal :=
  match r with
  | Except.ok v => Except.ok v
  | Except.error e =>
    if ignored.contains (some e.ty) then Except.ok PyVal.none
    else Except.error e

/-- The spawning loop of `call_zone_method`: for each zone, build and
authenticate a client (`except novaclient.exceptions.BadRequest: ...
continue`, so a `BadRequest` skips the zone and any other exception
propagates and aborts the loop), then spawn `_error_trap` for the zone's
`collection_method` into the pool, keeping `(zone, greenthread)` pairs.
`collcall z` models `getattr(getattr(nova_z, collection_name),
method_name)(*args, **kwargs)` for zone `z`'s client.  The returned list
holds each spawned task's zone id with the task's outcome: by
`pool.waitall()` every spawned task runs to completion before any result
is collected. -/
def czm_spawn (authenticate : Zone → Except Exc Unit)
    (collcall : Zone → Except Exc PyVal) (ignored : List (Option String)) :
    List Zone → Except Exc (List (Nat × Except Exc PyVal))
  | [] => Except.ok []
  | z :: rest =>
    match authenticate z with
    | Except.error e =>
      if e.ty == "BadRequest" then czm_spawn authenticate collcall ignored rest
      else Except.error e
    | Except.ok _ => do
      let tail ← czm_spawn authenticate collcall ignored rest
      Except.ok ((z.id, _error_trap ignored (collcall z)) :: tail)

/-- The result collection of `call_zone_method`:

    return [(zone.id, res.wait()) for zone, res in results]

`res.wait()` re-raises the exception a task ended with, so the first
failed task (in spawn order) aborts the comprehension and the whole
call. -/
def czm_collect : List (Nat × Except Exc PyVal) → Except Exc (List (Nat × PyVal))
  | [] => Except.ok []
  | (zid, r) :: rest => do
    let v ← r
    let tail ← czm_collect rest
    Except.ok ((zid, v) :: tail)

/-- `call_zone_method(context, method_name, errors_to_ignore, ...)`:
normalize `errors_to_ignore`, spawn one trapped task per zone of the
directory snapshot (skipping zones whose authentication raises
`BadRequest`), wait for all of them, then collect `(zone.id, result)`
pairs in spawn order. -/
def call_zone_method (authenticate : Zone → Except Exc Unit)
    (collcall : Zone → Except Exc PyVal) (errors_to_ignore : ErrorsToIgnore)
    (zones : List Zone) : Except Exc (List (Nat × PyVal)) := do
  let tasks ← czm_spawn authenticate collcall
      (normalize_errors_to_ignore errors_to_ignore) zones
  czm_collect tasks

/-- One resource collection of a zone's novaclient (`nova.servers`,
...): its `get` (by integer id) and `find` (by name) read operations. -/
structure Manager where
  get : Int → Except Exc PyVal
  find : PyVal → Except Exc PyVal

/-- One child zone's authenticated novaclient: its named collections,
and the effect of calling a named method on a resource object returned
by a read (`getattr(result, method_name)()`). -/
structure NovaClient where
  managers : String → Manager
  callMethod : PyVal → String → Except Exc PyVal

/-- Decimal-digit accumulator for the model of `int()` on strings: the
accumulator is `none` until the first digit is seen, so an empty digit
sequence is rejected; any non-digit character rejects the whole
string. -/
def parseDigits : List Char → Option Nat → Option Nat
  | [], acc => acc
  | c :: cs, acc =>
    if c.isDigit then
      parseDigits cs (some ((acc.getD 0) * 10 + (c.toNat - Char.toNat (Char.ofNat 48))))
    else Option.none

/-- `int(s)` on a string: an optional sign followed by at least one
decimal digit; anything else raises `ValueError`.  (Surrounding
whitespace, which Python also strips, plays no role in this code
path.) -/
def pyIntOfString (s : String) : Option Int :=
  match s.data with
  | Char.ofNat 45 :: cs => (parseDigits cs Option.none).map (fun n => -(n : Int))
  | Char.ofNat 43 :: cs => (parseDigits cs Option.none).map (fun n => (n : Int))
  | cs => (parseDigits cs Option.none).map (fun n => (n : Int))

/-- `int(item_id)`: Python integer conversion, raising `ValueError` for
a non-numeric string and `TypeError` for `None` and objects. -/
def pyInt : PyVal → Except Exc Int
  | PyVal.int n => Except.ok n
  | PyVal.str s =>
    match pyIntOfString s with
    | some n => Except.ok n
    | Option.none => Except.error valueErrorExc
  | _ => Except.error typeErrorExc

/-- `method_name.lower()` (ASCII lowering, which is all the source
compares). -/
def pyLower (s : String) : String := String.mk (s.data.map Char.toLower)

/-- The method-application step at the end of
`_issue_novaclient_command`:

    if method_name.lower() not in ['get', 'find']:
        result = getattr(result, method_name)()
    return result
-/
def apply_method (nova : NovaClient) (method_name : String) (result : PyVal) :
    Except Exc PyVal :=
  if ["get", "find"].contains (pyLower method_name) then Except.ok result
  else nova.callMethod result method_name

/-- The outer `try ... except novaclient.NotFound: return None` of
`_issue_novaclient_command`, wrapped around a completed read, followed
by the method-application step on a successful read. -/
def handle_read (nova : NovaClient) (method_name : String)
    (read : Except Exc PyVal) : Except Exc PyVal :=
  match read with
  | Except.error e =>
    if e.ty == "NotFound" then Except.ok PyVal.none else Except.error e
  | Except.ok result => apply_method nova method_name result

/-- `_issue_novaclient_command(nova, zone, collection, method_name, item_id)`:

    manager = getattr(nova, collection)
    try:
        try:
            result = manager.get(int(item_id))
        except ValueError, e:
            result = manager.find(name=item_id)
    except novaclient.NotFound:
        return None
    if method_name.lower() not in ['get', 'find']:
        result = getattr(result, method_name)()
    return result

The inner `except ValueError` catches both a non-numeric `item_id` in
`int(...)` and a `ValueError` out of `manager.get`, and falls back to
`manager.find`; the outer handler turns a `NotFound` from either read
into a `None` return. -/
def _issue_novaclient_command (nova : NovaClient) (_zone : Zone)
    (collection : String) (method_name : String) (item_id : PyVal) :
    Except Exc PyVal :=
  let manager := nova.managers collection
  let firstTry : Except Exc PyVal := do
    let n ← pyInt item_id
    manager.get n
  let read : Except Exc PyVal :=
    match firstTry with
    | Except.error e =>
      if e.ty == "ValueError" then manager.find item_id else Except.error e
    | ok => ok
  handle_read nova method_name read

/-- `wrap_novaclient_function(f, collection, method_name, item_id)`:
appends the three fixed arguments to the `(nova, zone)` call coming from
`child_zone_helper`. -/
def wrap_novaclient_function
    (f : NovaClient → Zone → String → String → PyVal → Except Exc PyVal)
    (collection method_name : String) (item_id : PyVal) :
    NovaClient → Zone → Except Exc PyVal :=
  fun nova zone => f nova zone collection method_name item_id

/-- The per-key test of `unmarshall_result`'s scrubbing loop,
`k[0] == '_' or k == 'manager'`; `k[0]` raises `IndexError` on an empty
key. -/
def keyIsPrivate (k : String) : Except Exc Bool :=
  match k.data with
  | [] => Except.error indexErrorExc
  | c :: _ => Except.ok (c == '_' || k == "manager")

/-- The scrubbing loop of `unmarshall_result` on one response's
`__dict__` (iteration over a copy of the keys, deleting in place, which
amounts to filtering in order):

    for k in server.keys():
        if k[0] == '_' or k == 'manager':
            del server[k]
-/
def scrub_fields : List (String × PyVal) → Except Exc (List (String × PyVal))
  | [] => Except.ok []
  | (k, v) :: rest => do
    let isPriv ← keyIsPrivate k
    let tail ← scrub_fields rest
    Except.ok (if isPriv then tail else (k, v) :: tail)

/-- The accumulation loop of `unmarshall_result`:

    reduced_response = []
    for zone_response in zone_responses:
        if not zone_response:
            continue
        server = zone_response.__dict__
        for k in server.keys():
            if k[0] == '_' or k == 'manager':
                del server[k]
        reduced_response.append(dict(server=server))

Falsy responses are skipped; a truthy non-object response has no
`__dict__` and raises `AttributeError`. -/
def reduce_responses : List PyVal → Except Exc (List PyVal)
  | [] => Except.ok []
  | r :: rest =>
    if truthy r then
      match r with
      | PyVal.obj fields => do
        let server ← scrub_fields fields
        let tail ← reduce_responses rest
        Except.ok (PyVal.obj [("server", PyVal.obj server)] :: tail)
      | _ => Except.error attributeErrorExc
    else reduce_responses rest

/-- `reroute_compute.unmarshall_result(self, zone_responses)`: scrub and
collect the truthy responses, then

    if reduced_response:
        return reduced_response[0]  # first for now.
    return {}
-/
def unmarshall_result (zone_responses : List PyVal) : Except Exc PyVal := do
  let reduced ← reduce_responses zone_responses
  match reduced with
  | r :: _ => Except.ok r
  | [] => Except.ok (PyVal.obj [])

/-! Concrete fixtures shared by witnesses and counterexamples. -/

/-- A UUID-shaped identifier. -/
def uuid0 : String := "aaaaaaaa-bbbb-cccc-dddd-eeeeffff0000"

/-- A concrete UUID-shape test: exactly the string `uuid0` is
Global-shaped. -/
def isUuidLike0 : PyVal → Bool
  | PyVal.str s => s == uuid0
  | _ => false

/-- A concrete local database in which `uuid0` resolves to the integer
handle 7. -/
def db0 : PyVal → PyVal → Option Int :=
  fun _ v => if isUuidLike0 v then some 7 else Option.none

/-- A concrete local database in which every lookup misses. -/
def dbMiss : PyVal → PyVal → Option Int := fun _ _ => Option.none

/-- A concrete wrapped handler that returns its third positional
argument, exposing what the decorator passed in that slot. -/
def f_probe : List PyVal → List (String × PyVal) → Except Exc PyVal :=
  fun a _ => Except.ok ((a.drop 2).headD PyVal.none)

/-- C1: if the extracted identifier is not Global-shaped
(`is_uuid_like` returns false on it), the wrapped call returns exactly
`f args kwargs` — the local handler applied to the original, unchanged
arguments.  The conclusion holds for every `route` behaviour and does
not mention the zone side at all, so no zone directory read and no
fan-out can influence (or be required by) the call: the only code the
wrapper runs besides `f` is the argument extraction. -/
theorem reroute_local_passthrough
    (is_uuid_like : PyVal → Bool) (db : PyVal → PyVal → Option Int)
    (route : PyVal → PyVal → Except Exc PyVal)
    (f : List PyVal → List (String × PyVal) → Except Exc PyVal)
    (args : List PyVal) (kwargs : List (String × PyVal)) (ctx iid : PyVal)
    (hex : get_collection_context_and_id args kwargs
        = Except.ok ("servers", ctx, iid))
    (hu : is_uuid_like iid = false) :
    wrapped_f is_uuid_like db route f args kwargs = f args kwargs := by
  unfold wrapped_f
  rw [hex]
  simp [hu, Bind.bind, Except.bind]

/-- Witness for C1: a call whose third positional argument is the
integer 5 (not UUID-like) goes straight to the handler. -/
theorem reroute_local_passthrough_w :
    wrapped_f isUuidLike0 db0 route_to_child_zones f_probe
      [PyVal.obj [], PyVal.obj [], PyVal.int 5] []
    = f_probe [PyVal.obj [], PyVal.obj [], PyVal.int 5] [] :=
  reroute_local_passthrough isUuidLike0 db0 route_to_child_zones f_probe
    [PyVal.obj [], PyVal.obj [], PyVal.int 5] [] (PyVal.obj []) (PyVal.int 5)
    rfl rfl

/-- C2, counterexample: a Global identifier that resolves locally, yet
the handler receives the original global token.  In the call
`f(api, ctx, uuid0, instance_id=None)` the extraction step uses
truthiness (`not instance_id`), so the falsy `instance_id=None` keyword
is ignored and the UUID is taken from positional slot 2; the
substitution step, however, uses key presence (`'instance_id' in
kwargs`), so it overwrites the keyword and leaves the UUID in the
positional slot.  The handler (which here returns its third positional
argument) therefore still receives the original token `uuid0` even
though the lookup resolved it to the local handle 7. -/
theorem reroute_global_hit_cex :
    wrapped_f isUuidLike0 db0 route_to_child_zones f_probe
      [PyVal.obj [], PyVal.obj [], PyVal.str uuid0]
      [("instance_id", PyVal.none)]
    = Except.ok (PyVal.str uuid0) := rfl

/-- C2, amended: for a Global identifier that resolves locally, the
handler is called with the resolved integer handle substituted at the
extraction site — at the `instance_id` keyword when that key is present
in `kwargs` (the positional arguments are then left untouched), or in
positional slot 2 (with the token removed) when the key is absent and
at least three positional arguments were passed.  Only when the
`instance_id` key is present with a falsy value while the token sat in
positional slot 2 (the counterexample) can the original token still
reach the handler. -/
theorem reroute_global_hit_rewrite
    (is_uuid_like : PyVal → Bool) (db : PyVal → PyVal → Option Int)
    (route : PyVal → PyVal → Except Exc PyVal)
    (f : List PyVal → List (String × PyVal) → Except Exc PyVal)
    (args : List PyVal) (kwargs : List (String × PyVal)) (ctx iid : PyVal)
    (item_id : Int)
    (hex : get_collection_context_and_id args kwargs
        = Except.ok ("servers", ctx, iid))
    (hu : is_uuid_like iid = true)
    (hdb : db ctx iid = some item_id) :
    (kwHas kwargs "instance_id" = true →
      wrapped_f is_uuid_like db route f args kwargs
        = f args (kwSet kwargs "instance_id" (PyVal.int item_id))) ∧
    (kwHas kwargs "instance_id" = false → 2 < args.length →
      wrapped_f is_uuid_like db route f args kwargs
        = f (args.take 2 ++ PyVal.int item_id :: args.drop 3) kwargs) := by
  constructor
  · intro hkw
    unfold wrapped_f
    rw [hex]
    simp [hu, hdb, replace_uuid_with_id, hkw, Bind.bind, Except.bind]
  · intro hkw hlen
    unfold wrapped_f
    rw [hex]
    rcases args with _ | ⟨a, _ | ⟨b, _ | ⟨c, rest⟩⟩⟩
    · simp at hlen
    · simp at hlen
    · simp at hlen
    · simp [hu, hdb, replace_uuid_with_id, hkw, pyPop, pyInsert,
        Bind.bind, Except.bind]

/-- Witness for C2 (amended), keyword case: with `instance_id` present
and truthy in `kwargs`, the handler receives the keyword rewritten to
the resolved handle 7. -/
theorem reroute_global_hit_rewrite_w :
    wrapped_f isUuidLike0 db0 route_to_child_zones f_probe
      [PyVal.obj [], PyVal.obj []] [("instance_id", PyVal.str uuid0)]
    = f_probe [PyVal.obj [], PyVal.obj []]
        (kwSet [("instance_id", PyVal.str uuid0)] "instance_id" (PyVal.int 7)) :=
  (reroute_global_hit_rewrite isUuidLike0 db0 route_to_child_zones f_probe
    [PyVal.obj [], PyVal.obj []] [("instance_id", PyVal.str uuid0)]
    (PyVal.obj []) (PyVal.str uuid0) 7 rfl rfl rfl).1 rfl

/-- C3: evaluation of the source at the claim's scenario — a Global
identifier that misses locally.  The wrapped call raises `TypeError`,
not `InstanceNotFound`: `_route_to_child_zones` is defined with the
three parameters `(context, collection, item_uuid)` and no `self`, so
the bound-method call `self._route_to_child_zones(context, collection,
item_uuid)` passes four arguments to a three-parameter function and
fails before the routing-disabled / empty-snapshot checks can run (the
body also names the undefined `InstanceNotFound`).  The fan-out
executor is indeed never invoked, but the failure the caller sees is
`TypeError`, contradicting the claimed `NotFound`. -/
theorem route_call_raises_type_error :
    wrapped_f isUuidLike0 dbMiss route_to_child_zones f_probe
      [PyVal.obj [], PyVal.obj [], PyVal.str uuid0] []
    = Except.error typeErrorExc := rfl

/-- C9: the `redirect_handler` wrapper returns the `results` value
stored in a raised `RedirectResult` verbatim, and otherwise returns
exactly what the wrapped function returns, applying no transformation
in either case. -/
theorem redirect_handler_passthrough
    (f : List PyVal → List (String × PyVal) → Except Exc PyVal)
    (args : List PyVal) (kwargs : List (String × PyVal)) :
    (∀ res, f args kwargs = Except.error (RedirectResult res) →
      redirect_handler f args kwargs = Except.ok res) ∧
    (∀ v, f args kwargs = Except.ok v →
      redirect_handler f args kwargs = Except.ok v) := by
  constructor
  · intro res h
    unfold redirect_handler
    rw [h]
    rfl
  · intro v h
    unfold redirect_handler
    rw [h]

/-- Witness for C9: a function raising `RedirectResult` with payload
`"x"` has its payload returned directly. -/
theorem redirect_handler_passthrough_w :
    redirect_handler (fun _ _ => Except.error (RedirectResult (PyVal.str "x")))
      [] [] = Except.ok (PyVal.str "x") :=
  (redirect_handler_passthrough
    (fun _ _ => Except.error (RedirectResult (PyVal.str "x"))) [] []).1
    (PyVal.str "x") rfl

/-- C10: the extraction/substitution contract is partial exactly as
claimed.  (1) One positional argument with no `context` keyword makes
`get_collection_context_and_id` read `args[1]` under the guard
`len(args) > 0` and raise `IndexError`; (2) two positional arguments
with `instance_id` absent make it read `args[2]` under `len(args) > 1`
and raise `IndexError`; (3) `replace_uuid_with_id` on two positional
arguments without the `instance_id` keyword pops index 2 under
`len(args) > 1` and raises `IndexError`; (4) with at least three
positional arguments both functions always succeed; (5) with truthy
`context` and `instance_id` keywords extraction always succeeds, and
(6) with the `instance_id` key present substitution always succeeds. -/
theorem extraction_partiality :
    (get_collection_context_and_id [PyVal.obj []] [] = Except.error indexErrorExc) ∧
    (get_collection_context_and_id [PyVal.obj [], PyVal.obj []]
        [("context", PyVal.obj [])] = Except.error indexErrorExc) ∧
    (replace_uuid_with_id [PyVal.obj [], PyVal.obj []] [] (PyVal.int 7)
        = Except.error indexErrorExc) ∧
    (∀ (args : List PyVal) (kwargs : List (String × PyVal)) (rid : PyVal),
      2 < args.length →
      (∃ t, get_collection_context_and_id args kwargs = Except.ok t) ∧
      (∃ p, replace_uuid_with_id args kwargs rid = Except.ok p)) ∧
    (∀ (args : List PyVal) (kwargs : List (String × PyVal)),
      truthy (kwGet kwargs "context") = true →
      truthy (kwGet kwargs "instance_id") = true →
      ∃ t, get_collection_context_and_id args kwargs = Except.ok t) ∧
    (∀ (args : List PyVal) (kwargs : List (String × PyVal)) (rid : PyVal),
      kwHas kwargs "instance_id" = true →
      ∃ p, replace_uuid_with_id args kwargs rid = Except.ok p) := by
  refine ⟨rfl, rfl, rfl, ?_, ?_, ?_⟩
  · intro args kwargs rid hlen
    rcases args with _ | ⟨a, _ | ⟨b, _ | ⟨c, rest⟩⟩⟩
    · simp at hlen
    · simp at hlen
    · simp at hlen
    · constructor
      · unfold get_collection_context_and_id
        cases hc : truthy (kwGet kwargs "context") <;>
          cases hi : truthy (kwGet kwargs "instance_id") <;>
            simp [hc, hi, pyGetItem, Bind.bind, Except.bind]
      · unfold replace_uuid_with_id
        cases hk : kwHas kwargs "instance_id" <;>
          simp [hk, pyPop, pyInsert, Bind.bind, Except.bind]
  · intro args kwargs hc hi
    unfold get_collection_context_and_id
    simp [hc, hi, Bind.bind, Except.bind]
  · intro args kwargs rid hk
    unfold replace_uuid_with_id
    simp [hk, Bind.bind, Except.bind]

/-- Witness for C10: with three positional arguments both the
extraction and the substitution complete. -/
theorem extraction_partiality_w :
    (∃ t, get_collection_context_and_id
        [PyVal.none, PyVal.none, PyVal.none] [] = Except.ok t) ∧
    (∃ p, replace_uuid_with_id [PyVal.none, PyVal.none, PyVal.none] []
        (PyVal.int 7) = Except.ok p) :=
  extraction_partiality.2.2.2.1 [PyVal.none, PyVal.none, PyVal.none] []
    (PyVal.int 7) (by decide)

/-! Fan-out fixtures. -/

/-- Three concrete child-zone records. -/
def zoneA : Zone := ⟨1, "u1", "p1", "http://zone-a"⟩

/-- Second concrete child zone. -/
def zoneB : Zone := ⟨2, "u2", "p2", "http://zone-b"⟩

/-- Third concrete child zone. -/
def zoneC : Zone := ⟨3, "u3", "p3", "http://zone-c"⟩

/-- A concrete resource payload returned by a healthy zone. -/
def payloadB : PyVal := PyVal.obj [("name", PyVal.str "vm-b")]

/-- Authentication that succeeds against every zone. -/
def authOk : Zone → Except Exc Unit := fun _ => Except.ok ()

/-- Authentication that raises `BadRequest` against `zoneA` (id 1) and
succeeds elsewhere. -/
def authFailsA : Zone → Except Exc Unit :=
  fun z => if z.id == 1 then Except.error badRequestExc else Except.ok ()

/-- A healthy novaclient for every zone: reads succeed with `payloadB`
and named method calls return the resource. -/
def clientOf0 : Zone → NovaClient :=
  fun _ => ⟨fun _ => ⟨fun _ => Except.ok payloadB, fun _ => Except.ok payloadB⟩,
    fun v _ => Except.ok v⟩

/-- A per-zone operation that always succeeds with `payloadB`. -/
def funcPayload : NovaClient → Zone → Except Exc PyVal :=
  fun _ _ => Except.ok payloadB

/-- A per-zone collection call that succeeds on every zone. -/
def collOk : Zone → Except Exc PyVal :=
  fun z => Except.ok (PyVal.str z.api_url)

/-- A concrete zone-operation error of a kind `call_zone_method` was not
told to ignore. -/
def boomExc : Exc := ⟨"Boom", PyVal.none⟩

/-- A per-zone collection call that raises `boomExc` on `zoneA` (id 1)
and returns `payloadB` elsewhere. -/
def collBoomA : Zone → Except Exc PyVal :=
  fun z => if z.id == 1 then Except.error boomExc else Except.ok payloadB

/-- A per-zone collection call that raises `boomExc` on `zoneB` (id 2)
and returns `payloadB` elsewhere. -/
def collBoomB : Zone → Except Exc PyVal :=
  fun z => if z.id == 2 then Except.error boomExc else Except.ok payloadB

/-- C4, counterexample: in the `child_zone_helper` fan-out (the one the
reroute path uses), an authentication failure against the first zone
aborts the whole call — `_process` wraps `nova.authenticate()` in no
handler, so the exception propagates through `GreenPool.imap` and the
result list, including healthy `zoneB`'s answer, is lost.  This
contradicts the claim that an authentication failure is recorded as a
skip and never aborts the overall fan-out call. -/
theorem child_zone_auth_aborts_cex :
    child_zone_helper authFailsA clientOf0 funcPayload [zoneA, zoneB]
      = Except.error badRequestExc := rfl

/-- C4, amended: in the `call_zone_method` fan-out, an authentication
failure of class `BadRequest` against one zone makes the loop `continue`
past it: the overall call behaves exactly as if that zone were absent
from the snapshot — the zone is dropped from the result list (the skip
is only logged), every sibling zone is still processed, and the failure
never aborts the overall call (for any sibling behaviour whatsoever).
In the `child_zone_helper` fan-out, by contrast, authentication failures
are not caught and abort the overall call (see the counterexample). -/
theorem czm_badrequest_skips
    (authenticate : Zone → Except Exc Unit) (collcall : Zone → Except Exc PyVal)
    (eti : ErrorsToIgnore) (pre post : List Zone) (z0 : Zone) (e : Exc)
    (ha : authenticate z0 = Except.error e) (hty : e.ty = "BadRequest") :
    call_zone_method authenticate collcall eti (pre ++ z0 :: post)
      = call_zone_method authenticate collcall eti (pre ++ post) := by
  unfold call_zone_method
  suffices h : czm_spawn authenticate collcall (normalize_errors_to_ignore eti)
      (pre ++ z0 :: post)
      = czm_spawn authenticate collcall (normalize_errors_to_ignore eti)
      (pre ++ post) by
    rw [h]
  induction pre with
  | nil => simp [czm_spawn, ha, hty]
  | cons z pre ih =>
    simp only [List.cons_append, czm_spawn, List.append_eq, ih]

/-- Witness for C4 (amended): with `zoneA` failing authentication with
`BadRequest` between healthy `zoneB` and `zoneC`, the call equals the
call on the snapshot without `zoneA`. -/
theorem czm_badrequest_skips_w :
    call_zone_method authFailsA collOk ErrorsToIgnore.pynone [zoneB, zoneA, zoneC]
      = call_zone_method authFailsA collOk ErrorsToIgnore.pynone [zoneB, zoneC] :=
  czm_badrequest_skips authFailsA collOk ErrorsToIgnore.pynone [zoneB] [zoneC]
    zoneA badRequestExc rfl rfl

/-- Helper: when every zone of the snapshot authenticates, the spawn
phase of `call_zone_method` produces one task outcome per zone, in
snapshot order — all tasks run to completion regardless of their
individual outcomes (`pool.waitall()`). -/
theorem czm_spawn_all_ok
    (authenticate : Zone → Except Exc Unit) (collcall : Zone → Except Exc PyVal)
    (ign : List (Option String)) (zones : List Zone)
    (hauth : ∀ z ∈ zones, authenticate z = Except.ok ()) :
    czm_spawn authenticate collcall ign zones
      = Except.ok (zones.map fun z => (z.id, _error_trap ign (collcall z))) := by
  induction zones with
  | nil => simp [czm_spawn]
  | cons z zones ih =>
    have hz := hauth z (List.mem_cons_self z zones)
    have ih2 := ih fun y hy => hauth y (List.mem_cons_of_mem _ hy)
    simp only [czm_spawn, hz, ih2, List.map_cons, Bind.bind, Except.bind]

/-- Helper: result collection (`res.wait()` in spawn order) re-raises
the first task error it reaches, aborting the comprehension. -/
theorem czm_collect_error
    (l1 l2 : List (Nat × Except Exc PyVal)) (zid : Nat) (e : Exc)
    (h : ∀ x ∈ l1, ∃ v, x.2 = Except.ok v) :
    czm_collect (l1 ++ (zid, Except.error e) :: l2) = Except.error e := by
  induction l1 with
  | nil => simp [czm_collect, Bind.bind, Except.bind]
  | cons x l1 ih =>
    obtain ⟨v, hv⟩ := h x (List.mem_cons_self x l1)
    have ih2 := ih fun y hy => h y (List.mem_cons_of_mem _ hy)
    obtain ⟨xz, xr⟩ := x
    simp only at hv
    simp only [List.cons_append, czm_collect, hv, List.append_eq, ih2,
      Bind.bind, Except.bind]

/-- C5, counterexample: a non-allow-listed per-zone error is not
contained to that zone's outcome — with `zoneA` raising the unlisted
`Boom` error and `zoneB` healthy, the whole `call_zone_method` call
raises `Boom` (the collection loop re-raises it from `res.wait()`), and
`zoneB`'s outcome is discarded rather than returned. -/
theorem czm_error_aborts_cex :
    call_zone_method authOk collBoomA ErrorsToIgnore.pynone [zoneA, zoneB]
      = Except.error boomExc := rfl

/-- C5, amended: (1) a per-zone operation error whose kind is in the
configured allow-ignore set makes `_error_trap` turn that zone's task
outcome into `None` (NotFound); (2) when every zone authenticates, the
spawn phase completes every zone's task and keeps every outcome in
snapshot order, so an erroring task never aborts the sibling tasks;
(3) but a non-allow-listed error is re-raised when the results are
collected: the first such error (in snapshot order, after any number of
successful zones) aborts the overall `call_zone_method` call instead of
being contained to that zone's entry in the result list. -/
theorem czm_error_containment :
    (∀ (eti : ErrorsToIgnore) (e : Exc),
      (normalize_errors_to_ignore eti).contains (some e.ty) = true →
      _error_trap (normalize_errors_to_ignore eti) (Except.error e)
        = Except.ok PyVal.none) ∧
    (∀ (authenticate : Zone → Except Exc Unit)
       (collcall : Zone → Except Exc PyVal)
       (ign : List (Option String)) (zones : List Zone),
      (∀ z ∈ zones, authenticate z = Except.ok ()) →
      czm_spawn authenticate collcall ign zones
        = Except.ok (zones.map fun z => (z.id, _error_trap ign (collcall z)))) ∧
    (∀ (authenticate : Zone → Except Exc Unit)
       (collcall : Zone → Except Exc PyVal) (eti : ErrorsToIgnore)
       (pre post : List Zone) (z0 : Zone) (e : Exc),
      (∀ z ∈ pre ++ z0 :: post, authenticate z = Except.ok ()) →
      (∀ z ∈ pre, ∃ v,
        _error_trap (normalize_errors_to_ignore eti) (collcall z)
          = Except.ok v) →
      _error_trap (normalize_errors_to_ignore eti) (collcall z0)
        = Except.error e →
      call_zone_method authenticate collcall eti (pre ++ z0 :: post)
        = Except.error e) := by
  refine ⟨?_, ?_, ?_⟩
  · intro eti e h
    simp only [_error_trap, h, if_true]
  · intro authenticate collcall ign zones hauth
    exact czm_spawn_all_ok authenticate collcall ign zones hauth
  · intro authenticate collcall eti pre post z0 e hauth hpre htrap
    unfold call_zone_method
    rw [czm_spawn_all_ok authenticate collcall _ _ hauth]
    simp only [List.map_append, List.map_cons, Bind.bind, Except.bind, htrap]
    refine czm_collect_error _ _ _ _ ?_
    intro x hx
    obtain ⟨z, hz, rfl⟩ := List.mem_map.mp hx
    exact hpre z hz

/-- Witness for C5 (amended): the `Boom` kind allow-listed turns into a
`None` outcome; all tasks of `[zoneA, zoneB]` complete even though
`zoneA`'s errors; and with healthy `zoneA` before erroring `zoneB`, the
overall call aborts with `Boom`. -/
theorem czm_error_containment_w :
    (_error_trap (normalize_errors_to_ignore (ErrorsToIgnore.single "Boom"))
        (Except.error boomExc) = Except.ok PyVal.none) ∧
    (czm_spawn authOk collBoomA (normalize_errors_to_ignore ErrorsToIgnore.pynone)
        [zoneA, zoneB]
      = Except.ok ([zoneA, zoneB].map fun z =>
          (z.id, _error_trap (normalize_errors_to_ignore ErrorsToIgnore.pynone)
            (collBoomA z)))) ∧
    (call_zone_method authOk collBoomB ErrorsToIgnore.pynone [zoneA, zoneB, zoneC]
      = Except.error boomExc) :=
  ⟨czm_error_containment.1 (ErrorsToIgnore.single "Boom") boomExc rfl,
   czm_error_containment.2.1 authOk collBoomA
     (normalize_errors_to_ignore ErrorsToIgnore.pynone) [zoneA, zoneB]
     (fun _ _ => rfl),
   czm_error_containment.2.2 authOk collBoomB ErrorsToIgnore.pynone
     [zoneA] [zoneC] zoneB boomExc (fun _ _ => rfl)
     (by intro z hz; simp only [List.mem_singleton] at hz; subst hz
         exact ⟨payloadB, rfl⟩)
     rfl⟩

/-! Novaclient and aggregation fixtures. -/

/-- A concrete resource collection: `get` succeeds only on handle 5,
`find` succeeds only on the name `vm-b`; everything else signals
`NotFound`. -/
def mgr0 : Manager :=
  ⟨fun n => if n == 5 then Except.ok payloadB else Except.error ncNotFoundExc,
   fun v =>
     match v with
     | PyVal.str s =>
       if s == "vm-b" then Except.ok payloadB else Except.error ncNotFoundExc
     | _ => Except.error ncNotFoundExc⟩

/-- A concrete zone client built from `mgr0`; the only named method a
resource supports is `pause`. -/
def nova0 : NovaClient :=
  ⟨fun _ => mgr0,
   fun _ mn => if mn == "pause" then Except.ok PyVal.none
     else Except.error typeErrorExc⟩

/-- C6: per-zone invocation policy of `_issue_novaclient_command`.
(1) When `int(item_id)` raises `ValueError`, resolution falls back to
the read-by-name `manager.find`, with the same `NotFound` handling and
method application afterwards; (2) a `NotFound` from the read-by-id
makes the zone's outcome `None` (not an error); (3) a `NotFound` from
the fallback read-by-name likewise yields `None`; (4) when the read
succeeds and the operation's method name is not a read (`get`/`find`,
case-insensitively), that method is applied to the resolved resource
and its return value becomes the zone's payload. -/
theorem novaclient_command_spec :
    (∀ (nova : NovaClient) (z : Zone) (c mn : String) (item : PyVal),
      pyInt item = Except.error valueErrorExc →
      _issue_novaclient_command nova z c mn item
        = handle_read nova mn ((nova.managers c).find item)) ∧
    (∀ (nova : NovaClient) (z : Zone) (c mn : String) (item : PyVal)
       (n : Int) (e : Exc),
      pyInt item = Except.ok n →
      (nova.managers c).get n = Except.error e → e.ty = "NotFound" →
      _issue_novaclient_command nova z c mn item = Except.ok PyVal.none) ∧
    (∀ (nova : NovaClient) (z : Zone) (c mn : String) (item : PyVal) (e : Exc),
      pyInt item = Except.error valueErrorExc →
      (nova.managers c).find item = Except.error e → e.ty = "NotFound" →
      _issue_novaclient_command nova z c mn item = Except.ok PyVal.none) ∧
    (∀ (nova : NovaClient) (z : Zone) (c mn : String) (item : PyVal)
       (n : Int) (r : PyVal),
      pyInt item = Except.ok n →
      (nova.managers c).get n = Except.ok r →
      (["get", "find"].contains (pyLower mn)) = false →
      _issue_novaclient_command nova z c mn item = nova.callMethod r mn) := by
  refine ⟨?_, ?_, ?_, ?_⟩
  · intro nova z c mn item h
    simp [_issue_novaclient_command, h, Bind.bind, Except.bind, valueErrorExc]
  · intro nova z c mn item n e h1 h2 h3
    simp [_issue_novaclient_command, h1, h2, h3, handle_read,
      Bind.bind, Except.bind]
  · intro nova z c mn item e h1 h2 h3
    simp [_issue_novaclient_command, h1, h2, h3, handle_read, valueErrorExc,
      Bind.bind, Except.bind]
  · intro nova z c mn item n r h1 h2 hcont
    unfold _issue_novaclient_command
    simp only [h1, h2, Bind.bind, Except.bind, handle_read, apply_method,
      hcont, Bool.false_eq_true, if_false]

/-- Witness for C6: with `mgr0`, the name `vm-b` takes the find
fallback; the numeric ids 6 and the name `nope` miss and yield `None`;
and `pause` on the resolved handle 5 returns the method call's value. -/
theorem novaclient_command_spec_w :
    (_issue_novaclient_command nova0 zoneA "servers" "get" (PyVal.str "vm-b")
      = handle_read nova0 "get" (mgr0.find (PyVal.str "vm-b"))) ∧
    (_issue_novaclient_command nova0 zoneA "servers" "get" (PyVal.str "6")
      = Except.ok PyVal.none) ∧
    (_issue_novaclient_command nova0 zoneA "servers" "get" (PyVal.str "nope")
      = Except.ok PyVal.none) ∧
    (_issue_novaclient_command nova0 zoneA "servers" "pause" (PyVal.str "5")
      = nova0.callMethod payloadB "pause") :=
  ⟨novaclient_command_spec.1 nova0 zoneA "servers" "get" (PyVal.str "vm-b") rfl,
   novaclient_command_spec.2.1 nova0 zoneA "servers" "get" (PyVal.str "6")
     6 ncNotFoundExc rfl rfl rfl,
   novaclient_command_spec.2.2.1 nova0 zoneA "servers" "get" (PyVal.str "nope")
     ncNotFoundExc rfl rfl rfl,
   novaclient_command_spec.2.2.2 nova0 zoneA "servers" "pause" (PyVal.str "5")
     5 payloadB rfl rfl rfl⟩

/-- Helper: the accumulation loop of `unmarshall_result` skips any
prefix of falsy (no-answer) responses. -/
theorem reduce_responses_skip_falsy (pre rest : List PyVal)
    (h : ∀ r ∈ pre, truthy r = false) :
    reduce_responses (pre ++ rest) = reduce_responses rest := by
  induction pre with
  | nil => rfl
  | cons r pre ih =>
    have hr := h r (List.mem_cons_self r pre)
    have ih2 := ih fun y hy => h y (List.mem_cons_of_mem _ hy)
    simp only [List.cons_append, reduce_responses, hr, List.append_eq, ih2,
      Bool.false_eq_true, if_false]

/-- C7: aggregation discards the empty (falsy) outcomes, takes the
first non-empty payload in snapshot order, and returns it scrubbed and
wrapped under the `server` key; when every outcome is empty it returns
the empty dict `{}` rather than an error. -/
theorem unmarshall_first_wins :
    (∀ (pre : List PyVal) (fields : List (String × PyVal)) (rest : List PyVal)
       (fields2 : List (String × PyVal)) (l : List PyVal),
      (∀ r ∈ pre, truthy r = false) →
      scrub_fields fields = Except.ok fields2 →
      reduce_responses rest = Except.ok l →
      unmarshall_result (pre ++ PyVal.obj fields :: rest)
        = Except.ok (PyVal.obj [("server", PyVal.obj fields2)])) ∧
    (∀ rs : List PyVal, (∀ r ∈ rs, truthy r = false) →
      unmarshall_result rs = Except.ok (PyVal.obj [])) := by
  constructor
  · intro pre fields rest fields2 l hpre hscrub hrest
    unfold unmarshall_result
    rw [reduce_responses_skip_falsy pre _ hpre]
    simp [reduce_responses, truthy, hscrub, hrest, Bind.bind, Except.bind]
  · intro rs h
    unfold unmarshall_result
    have h2 : reduce_responses rs = Except.ok [] := by
      have h3 := reduce_responses_skip_falsy rs [] h
      simpa using h3
    simp [h2, Bind.bind, Except.bind]

/-- Witness for C7: two empty outcomes followed by two found payloads
aggregate to the first found payload (scrubbed, under `server`), and an
all-empty outcome list aggregates to `{}`. -/
theorem unmarshall_first_wins_w :
    (unmarshall_result [PyVal.none, PyVal.int 0,
        PyVal.obj [("_info", PyVal.int 1), ("manager", PyVal.none),
          ("name", PyVal.str "vm")],
        PyVal.obj [("name", PyVal.str "other")]]
      = Except.ok (PyVal.obj [("server",
          PyVal.obj [("name", PyVal.str "vm")])])) ∧
    (unmarshall_result [PyVal.none, PyVal.str ""] = Except.ok (PyVal.obj [])) :=
  ⟨unmarshall_first_wins.1 [PyVal.none, PyVal.int 0]
      [("_info", PyVal.int 1), ("manager", PyVal.none), ("name", PyVal.str "vm")]
      [PyVal.obj [("name", PyVal.str "other")]]
      [("name", PyVal.str "vm")]
      [PyVal.obj [("server", PyVal.obj [("name", PyVal.str "other")])]]
      (by intro r hr; fin_cases hr <;> rfl) rfl rfl,
   unmarshall_first_wins.2 [PyVal.none, PyVal.str ""]
      (by intro r hr; fin_cases hr <;> rfl)⟩

/-- Helper: a key the scrubbing test passes does not begin with an
underscore and is not `manager`. -/
theorem keyIsPrivate_false (k : String) (h : keyIsPrivate k = Except.ok false) :
    k.data.head? ≠ some '_' ∧ k ≠ "manager" := by
  unfold keyIsPrivate at h
  cases hd : k.data with
  | nil => rw [hd] at h; cases h
  | cons c cs =>
    rw [hd] at h
    simp only [Except.ok.injEq, Bool.or_eq_false_iff] at h
    obtain ⟨h1, h2⟩ := h
    constructor
    · intro heq
      simp only [List.head?_cons, Option.some.injEq] at heq
      rw [heq] at h1
      simp at h1
    · intro heq
      rw [heq] at h2
      simp at h2

/-- Helper: every field surviving the scrubbing loop passes the
scrubbing test. -/
theorem scrub_fields_keys (fields out : List (String × PyVal))
    (h : scrub_fields fields = Except.ok out) :
    ∀ kv ∈ out, keyIsPrivate kv.1 = Except.ok false := by
  induction fields generalizing out with
  | nil =>
    simp only [scrub_fields, Except.ok.injEq] at h
    subst h
    simp
  | cons kv0 fields ih =>
    obtain ⟨k, v⟩ := kv0
    cases hk : keyIsPrivate k with
    | error e =>
      simp only [scrub_fields, hk, Bind.bind, Except.bind] at h
      exact Except.noConfusion h
    | ok b =>
      cases hs : scrub_fields fields with
      | error e2 =>
        simp only [scrub_fields, hk, hs, Bind.bind, Except.bind] at h
        exact Except.noConfusion h
      | ok tail =>
        simp only [scrub_fields, hk, hs, Bind.bind, Except.bind,
          Except.ok.injEq] at h
        subst h
        cases b with
        | true => exact ih tail hs
        | false =>
          intro kv hkv
          rcases List.mem_cons.mp hkv with heq | hmem
          · subst heq
            exact hk
          · exact ih tail hs kv hmem

/-- Helper: every entry of the accumulated response list is a scrubbed
payload wrapped under the `server` key. -/
theorem reduce_responses_shape (rs l : List PyVal)
    (h : reduce_responses rs = Except.ok l) :
    ∀ x ∈ l, ∃ fields out, scrub_fields fields = Except.ok out ∧
      x = PyVal.obj [("server", PyVal.obj out)] := by
  induction rs generalizing l with
  | nil =>
    simp only [reduce_responses, Except.ok.injEq] at h
    subst h
    simp
  | cons r rs ih =>
    cases ht : truthy r with
    | false =>
      simp only [reduce_responses, ht, Bool.false_eq_true, if_false] at h
      exact ih l h
    | true =>
      cases r with
      | obj fields =>
        cases hs : scrub_fields fields with
        | error e =>
          simp only [reduce_responses, ht, if_true, hs,
            Bind.bind, Except.bind] at h
          exact Except.noConfusion h
        | ok out =>
          cases hr : reduce_responses rs with
          | error e =>
            simp only [reduce_responses, ht, if_true, hs, hr,
              Bind.bind, Except.bind] at h
            exact Except.noConfusion h
          | ok tail =>
            simp only [reduce_responses, ht, if_true, hs, hr,
              Bind.bind, Except.bind, Except.ok.injEq] at h
            subst h
            intro x hx
            rcases List.mem_cons.mp hx with heq | hmem
            · exact ⟨fields, out, hs, heq⟩
            · exact ih tail hr x hmem
      | none => simp [truthy] at ht
      | int n =>
        simp only [reduce_responses, ht, if_true] at h
        exact Except.noConfusion h
      | str s =>
        simp only [reduce_responses, ht, if_true] at h
        exact Except.noConfusion h

/-- C8: whenever the aggregator returns a payload, no field of that
payload has a name beginning with an underscore and no field is the
`manager` back-reference to the fetching client — the scrubbing loop
removed them. -/
theorem unmarshall_sanitized (rs : List PyVal) (out : List (String × PyVal))
    (h : unmarshall_result rs
      = Except.ok (PyVal.obj [("server", PyVal.obj out)])) :
    ∀ kv ∈ out, kv.1.data.head? ≠ some '_' ∧ kv.1 ≠ "manager" := by
  unfold unmarshall_result at h
  cases hr : reduce_responses rs with
  | error e =>
    rw [hr] at h
    simp only [Bind.bind, Except.bind] at h
    exact Except.noConfusion h
  | ok l =>
    rw [hr] at h
    simp only [Bind.bind, Except.bind] at h
    cases l with
    | nil => simp at h
    | cons x rest =>
      simp only [Except.ok.injEq] at h
      obtain ⟨fields, out2, hs, hx⟩ :=
        reduce_responses_shape rs (x :: rest) hr x (List.mem_cons_self x rest)
      rw [hx] at h
      have hout : out2 = out := by
        simpa using h
      subst hout
      intro kv hkv
      exact keyIsPrivate_false kv.1 (scrub_fields_keys fields out2 hs kv hkv)

/-- Witness for C8: aggregating a response that carried `_info` and
`manager` fields, the surviving field `name` passes both checks. -/
theorem unmarshall_sanitized_w :
    (("name" : String).data.head? ≠ some '_') ∧ ("name" : String) ≠ "manager" :=
  unmarshall_sanitized
    [PyVal.obj [("_info", PyVal.int 1), ("manager", PyVal.none),
      ("name", PyVal.str "vm")]]
    [("name", PyVal.str "vm")] rfl ("name", PyVal.str "vm") (by simp)
